import Mathlib

/-!
Verification of the hockey-team search application.

The application fetches a team directory from a remote stats service,
selects one team at random, resolves its logo image through a filesystem
cache backed by a remote asset endpoint, and displays the result in a
three-state window (loading / loaded / errored).

External effects (HTTP transport, filesystem, random number generator)
are modelled as explicit environment oracles; the functions below are
direct translations of `Team::search`, `get_sprite_for_team`,
`HockeyApp::new` and `HockeyApp::update` from `src/main.rs`.
-/

namespace HockeyGui

/-- A team record as returned by the remote stats directory
(`stats_api` team: `id`, `name`, `active`). -/
structure TeamRecord where
  id : Nat
  name : String
  active : Bool
deriving DecidableEq, Repr

/-- The `Team` result entity assembled by `Team::search`: numeric id,
display name, active flag, and the image handle (modelled by the path
the svg handle was loaded from, as in `svg::Handle::from_path`). -/
structure Team where
  number : Nat
  name : String
  active : Bool
  image : String
deriving DecidableEq, Repr

/-- The single classified error kind of the application (`enum Error`
in `src/main.rs` has exactly one variant, `APIError`). -/
inductive Error where
  | APIError
deriving DecidableEq, Repr

/-- Underlying failure causes that can occur along the search pipeline.
`transport` and `badResponse` (non-2xx or unparseable response) can
arise at the directory fetch; `malformedRequest`, `transport`,
`bodyRead` and `fsWrite` at the sprite fetch-and-persist step. -/
inductive FailureCause where
  | transport
  | malformedRequest
  | badResponse
  | bodyRead
  | fsWrite
deriving DecidableEq, Repr

/-- Error classification: the `From<failure::Context<&str>>` impl maps
every underlying failure, regardless of cause, to `Error::APIError`. -/
def classify (_ : FailureCause) : Error := Error.APIError

/-- Outcome of one HTTP GET against the sprite endpoint: the transport
can fail (`send(...).await`), reading the body can fail
(`read_to_end`), or a response with a status code and body bytes is
obtained.  The source never inspects the status code. -/
inductive NetResult where
  | failTransport
  | failRead
  | response (status : Nat) (body : List Nat)
deriving DecidableEq, Repr

/-- Environment oracle for `get_sprite_for_team`: the shared temp
directory (`std::env::temp_dir()`), the filesystem (a regular file's
bytes at each path, `none` when `path.is_file()` is false), whether
`http::Request::get(&url).body(body)` succeeds, the network oracle,
and whether `std::fs::write` succeeds. -/
structure SpriteEnv where
  tempDir : String
  fs : String → Option (List Nat)
  requestOk : Bool
  net : String → NetResult
  writeOk : Bool

/-- The deterministic cache path: `<temp dir>/<id>.svg`
(`path.push(format!("{}.svg", id))`). -/
def spritePath (tempDir : String) (id : Nat) : String :=
  tempDir ++ "/" ++ toString id ++ ".svg"

/-- The templated remote URL for a team's logo. -/
def spriteUrl (id : Nat) : String :=
  "http://www-league.nhlstatic.com/images/logos/teams-current-circle/" ++
    toString id ++ ".svg"

/-- Observable outcome of one run of `get_sprite_for_team`: the
returned `Result<PathBuf, Error>`, the number of network calls issued,
the number of filesystem writes performed, and the filesystem
afterwards. -/
structure SpriteOutcome where
  result : Except Error String
  netCalls : Nat
  fsWrites : Nat
  fsAfter : String → Option (List Nat)

/-- Translation of `get_sprite_for_team` from `src/main.rs`: compute
the cache path; if a regular file exists there, return it at once
(zero network calls, zero writes); otherwise build the request, GET
the templated URL, read the whole body, write it verbatim to the path
(creating or truncating) and return the path.  Every failure is routed
through `classify` (the `.context("")?` operator). -/
def get_sprite_for_team (env : SpriteEnv) (id : Nat) : SpriteOutcome :=
  match env.fs (spritePath env.tempDir id) with
  | some _ => ⟨Except.ok (spritePath env.tempDir id), 0, 0, env.fs⟩
  | none =>
    if env.requestOk = false then
      ⟨Except.error (classify FailureCause.malformedRequest), 0, 0, env.fs⟩
    else
      match env.net (spriteUrl id) with
      | NetResult.failTransport =>
          ⟨Except.error (classify FailureCause.transport), 1, 0, env.fs⟩
      | NetResult.failRead =>
          ⟨Except.error (classify FailureCause.bodyRead), 1, 0, env.fs⟩
      | NetResult.response _ body =>
          if env.writeOk = false then
            ⟨Except.error (classify FailureCause.fsWrite), 1, 0, env.fs⟩
          else
            ⟨Except.ok (spritePath env.tempDir id), 1, 1,
              fun p => if p = spritePath env.tempDir id then some body else env.fs p⟩

/-- Models `rand`'s `gen_range(0, n)` at a given rng draw: the call
panics when the range is empty (`none`), otherwise it returns a value
in `[0, n)` determined by the generator state. -/
def gen_range (rng n : Nat) : Option Nat :=
  if n = 0 then none else some (rng % n)

/-- The team-selection step of `Team::search`: draw `rng_idx` with
`gen_range(0, teams.len())`, then `teams.remove(rng_idx)`, which
yields the element at that index and the collection without it.
`none` models a panic (empty range, or out-of-bounds removal). -/
def selectTeam (rng : Nat) (teams : List TeamRecord) :
    Option (TeamRecord × List TeamRecord) :=
  match gen_range rng teams.length with
  | none => none
  | some idx =>
    match teams[idx]? with
    | none => none
    | some t => some (t, teams.eraseIdx idx)

/-- Environment oracle for one run of `Team::search`: the outcome of
`stats_client.get_teams()` (the external directory client fails on any
transport or parse failure), the thread-rng draw, and the sprite-step
environment. -/
structure SearchEnv where
  teamsResult : Except FailureCause (List TeamRecord)
  rng : Nat
  sprite : SpriteEnv

/-- Result of one run of `Team::search`: a fully assembled `Team`, a
classified error, or a panic (the selection step on an empty range). -/
inductive SearchResult where
  | found (t : Team)
  | failed (e : Error)
  | panicked
deriving DecidableEq, Repr

/-- Observable outcome of one run of `Team::search`: the result,
whether the selection step completed, whether the sprite step ran at
all, the sprite step's network calls and filesystem writes, and the
filesystem afterwards. -/
structure SearchOutcome where
  result : SearchResult
  selectionDone : Bool
  spriteAttempted : Bool
  spriteNetCalls : Nat
  spriteFsWrites : Nat
  fsAfter : String → Option (List Nat)

/-- Translation of `Team::search` from `src/main.rs`: fetch the team
directory (short-circuit on failure), select one team at random,
resolve its sprite via `get_sprite_for_team` (short-circuit on
failure), then assemble the `Team` entity from the selected record and
the sprite path. -/
def Team.search (env : SearchEnv) : SearchOutcome :=
  match env.teamsResult with
  | Except.error c => ⟨SearchResult.failed (classify c), false, false, 0, 0, env.sprite.fs⟩
  | Except.ok teams =>
    match selectTeam env.rng teams with
    | none => ⟨SearchResult.panicked, false, false, 0, 0, env.sprite.fs⟩
    | some (team, _rest) =>
      let s := get_sprite_for_team env.sprite team.id
      match s.result with
      | Except.error e => ⟨SearchResult.failed e, true, true, s.netCalls, s.fsWrites, s.fsAfter⟩
      | Except.ok path =>
          ⟨SearchResult.found ⟨team.id, team.name, team.active, path⟩,
            true, true, s.netCalls, s.fsWrites, s.fsAfter⟩

/-- The application state (`enum HockeyApp`): a tagged variant with
exactly three states (UI widget state such as `button::State` carries
no observable data and is omitted). -/
inductive HockeyApp where
  | Loading
  | Loaded (team : Team)
  | Errored (error : Error)
deriving DecidableEq, Repr

/-- Messages fed into `HockeyApp::update`. -/
inductive Message where
  | TeamFound (r : Except Error Team)
  | Search
deriving Repr

/-- `HockeyApp::new`: the initial state together with the number of
search tasks started (one, via `Command::perform(Team::search(), ...)`). -/
def HockeyApp.new : HockeyApp × Nat := (HockeyApp.Loading, 1)

/-- Translation of `HockeyApp::update`: the new state together with
the number of new search tasks started by the returned command. -/
def HockeyApp.update (s : HockeyApp) (m : Message) : HockeyApp × Nat :=
  match m with
  | Message.TeamFound (Except.ok team) => (HockeyApp.Loaded team, 0)
  | Message.TeamFound (Except.error e) => (HockeyApp.Errored e, 0)
  | Message.Search =>
    match s with
    | HockeyApp.Loading => (HockeyApp.Loading, 0)
    | _ => (HockeyApp.Loading, 1)

/-- The empty filesystem: no cache file exists at any path. -/
def fsEmpty : String → Option (List Nat) := fun _ => none

/-- The byte sequence of the string `<svg/>`. -/
def svgBytes : List Nat := [60, 115, 118, 103, 47, 62]

/-- A sprite environment whose network always fails with a transport
error and whose filesystem is empty. -/
def spriteEnvNetFail : SpriteEnv :=
  ⟨"/tmp", fsEmpty, true, fun _ => NetResult.failTransport, true⟩

/-- A search environment whose directory fetch fails with a transport
error. -/
def searchEnvDirFail : SearchEnv :=
  ⟨Except.error FailureCause.transport, 0, spriteEnvNetFail⟩

/-- A filesystem holding exactly one cached file, at the cache path
for id 2, containing the svg bytes. -/
def fsWithTwo : String → Option (List Nat) :=
  fun p => if p = spritePath "/tmp" 2 then some svgBytes else none

/-- A sprite environment where the cache file for id 2 already exists. -/
def spriteEnvHit : SpriteEnv :=
  ⟨"/tmp", fsWithTwo, true, fun _ => NetResult.failTransport, true⟩

/-- A network oracle serving status 200 with the svg bytes at the
templated URL for id 2, and a transport failure everywhere else. -/
def netServesTwo : String → NetResult :=
  fun u => if u = spriteUrl 2 then NetResult.response 200 svgBytes else NetResult.failTransport

/-- A sprite environment with an empty cache and a network serving the
logo of team 2. -/
def spriteEnvMiss : SpriteEnv :=
  ⟨"/tmp", fsEmpty, true, netServesTwo, true⟩

/-- The two-element directory of the concrete scenario. -/
def teamsAB : List TeamRecord :=
  [⟨1, "A", true⟩, ⟨2, "B", false⟩]

/-- The search environment of the concrete scenario: directory returns
the two teams, the rng draw picks index 1, the sprite environment has
an empty cache and a network serving team 2's logo. -/
def searchEnvScenario : SearchEnv :=
  ⟨Except.ok teamsAB, 1, spriteEnvMiss⟩

/-- A search environment whose directory fetch succeeds with the two
teams but whose sprite step fails with a transport error. -/
def searchEnvSpriteFail : SearchEnv :=
  ⟨Except.ok teamsAB, 1, spriteEnvNetFail⟩

/-- A search environment whose directory fetch succeeds with an empty
collection. -/
def searchEnvEmptyDir : SearchEnv :=
  ⟨Except.ok [], 0, spriteEnvNetFail⟩

/-- C1: if the team-directory fetch fails, `Team::search` returns the
classified error, performs no team selection and no sprite fetch, issues
no network call and no filesystem write, and leaves the filesystem
unchanged. -/
theorem search_directory_failure_short_circuits (env : SearchEnv) (c : FailureCause)
    (h : env.teamsResult = Except.error c) :
    (Team.search env).result = SearchResult.failed Error.APIError ∧
    (Team.search env).selectionDone = false ∧
    (Team.search env).spriteAttempted = false ∧
    (Team.search env).spriteNetCalls = 0 ∧
    (Team.search env).spriteFsWrites = 0 ∧
    (Team.search env).fsAfter = env.sprite.fs := by
  simp [Team.search, h, classify]

/-- Witness for C1 at a concrete environment whose directory fetch
fails with a transport error. -/
theorem search_directory_failure_short_circuits_witness :
    searchEnvDirFail.teamsResult = Except.error FailureCause.transport ∧
    ((Team.search searchEnvDirFail).result = SearchResult.failed Error.APIError ∧
    (Team.search searchEnvDirFail).selectionDone = false ∧
    (Team.search searchEnvDirFail).spriteAttempted = false ∧
    (Team.search searchEnvDirFail).spriteNetCalls = 0 ∧
    (Team.search searchEnvDirFail).spriteFsWrites = 0 ∧
    (Team.search searchEnvDirFail).fsAfter = searchEnvDirFail.sprite.fs) :=
  ⟨rfl, search_directory_failure_short_circuits searchEnvDirFail FailureCause.transport rfl⟩

/-- C2: for an identifier whose cache file already exists at the
deterministic path, `get_sprite_for_team` performs zero network calls
and zero filesystem writes, leaves the filesystem unchanged, and
returns that existing path. -/
theorem cache_hit_idempotent (env : SpriteEnv) (id : Nat) (bytes : List Nat)
    (h : env.fs (spritePath env.tempDir id) = some bytes) :
    (get_sprite_for_team env id).result = Except.ok (spritePath env.tempDir id) ∧
    (get_sprite_for_team env id).netCalls = 0 ∧
    (get_sprite_for_team env id).fsWrites = 0 ∧
    (get_sprite_for_team env id).fsAfter = env.fs := by
  simp [get_sprite_for_team, h]

/-- Witness for C2 at a concrete environment whose cache already holds
the file for id 2. -/
theorem cache_hit_idempotent_witness :
    spriteEnvHit.fs (spritePath spriteEnvHit.tempDir 2) = some svgBytes ∧
    ((get_sprite_for_team spriteEnvHit 2).result =
        Except.ok (spritePath spriteEnvHit.tempDir 2) ∧
    (get_sprite_for_team spriteEnvHit 2).netCalls = 0 ∧
    (get_sprite_for_team spriteEnvHit 2).fsWrites = 0 ∧
    (get_sprite_for_team spriteEnvHit 2).fsAfter = spriteEnvHit.fs) :=
  ⟨by simp [spriteEnvHit, fsWithTwo], cache_hit_idempotent spriteEnvHit 2 svgBytes
    (by simp [spriteEnvHit, fsWithTwo])⟩

/-- C3: for an identifier with no cache file, one successful run of
`get_sprite_for_team` issues exactly one network call, performs exactly
one filesystem write, leaves the response body bytes verbatim at the
deterministic path, and returns that path. -/
theorem cache_miss_roundtrip (env : SpriteEnv) (id status : Nat) (body : List Nat)
    (h1 : env.fs (spritePath env.tempDir id) = none)
    (h2 : env.requestOk = true)
    (h3 : env.net (spriteUrl id) = NetResult.response status body)
    (h4 : env.writeOk = true) :
    (get_sprite_for_team env id).result = Except.ok (spritePath env.tempDir id) ∧
    (get_sprite_for_team env id).netCalls = 1 ∧
    (get_sprite_for_team env id).fsWrites = 1 ∧
    (get_sprite_for_team env id).fsAfter (spritePath env.tempDir id) = some body := by
  simp [get_sprite_for_team, h1, h2, h3, h4]

/-- Witness for C3 at a concrete environment with an empty cache and a
network serving the svg bytes for id 2. -/
theorem cache_miss_roundtrip_witness :
    (spriteEnvMiss.fs (spritePath spriteEnvMiss.tempDir 2) = none ∧
      spriteEnvMiss.requestOk = true ∧
      spriteEnvMiss.net (spriteUrl 2) = NetResult.response 200 svgBytes ∧
      spriteEnvMiss.writeOk = true) ∧
    ((get_sprite_for_team spriteEnvMiss 2).result =
        Except.ok (spritePath spriteEnvMiss.tempDir 2) ∧
    (get_sprite_for_team spriteEnvMiss 2).netCalls = 1 ∧
    (get_sprite_for_team spriteEnvMiss 2).fsWrites = 1 ∧
    (get_sprite_for_team spriteEnvMiss 2).fsAfter (spritePath spriteEnvMiss.tempDir 2) =
        some svgBytes) :=
  ⟨⟨rfl, rfl, by simp [spriteEnvMiss, netServesTwo], rfl⟩,
    cache_miss_roundtrip spriteEnvMiss 2 200 svgBytes rfl rfl
      (by simp [spriteEnvMiss, netServesTwo]) rfl⟩

/-- C4: for every non-empty directory collection, the team selector
chooses an index within `[0, N)`, returns the element at that index
(hence an element present in the input collection), and removes the
chosen element, shrinking the collection by exactly one. -/
theorem selectTeam_picks_present_element (rng : Nat) (teams : List TeamRecord)
    (h : teams ≠ []) :
    ∃ idx, ∃ hlt : idx < teams.length,
      selectTeam rng teams = some (teams[idx], teams.eraseIdx idx) ∧
      teams[idx] ∈ teams ∧
      (teams.eraseIdx idx).length + 1 = teams.length := by
  have hpos : 0 < teams.length := List.length_pos.mpr h
  have hlt : rng % teams.length < teams.length := Nat.mod_lt _ hpos
  refine ⟨rng % teams.length, hlt, ?_, List.getElem_mem hlt,
    List.length_eraseIdx_add_one hlt⟩
  simp [selectTeam, gen_range, Nat.pos_iff_ne_zero.mp hpos,
    List.getElem?_eq_getElem hlt]

/-- Witness for C4 at the concrete two-element directory with rng
draw 1. -/
theorem selectTeam_picks_present_element_witness :
    teamsAB ≠ [] ∧
    (∃ idx, ∃ hlt : idx < teamsAB.length,
      selectTeam 1 teamsAB = some (teamsAB[idx], teamsAB.eraseIdx idx) ∧
      teamsAB[idx] ∈ teamsAB ∧
      (teamsAB.eraseIdx idx).length + 1 = teamsAB.length) :=
  ⟨by simp [teamsAB],
    selectTeam_picks_present_element 1 teamsAB (by simp [teamsAB])⟩

/-- C5: if the sprite step fails after a successful directory fetch
and team selection, `Team::search` returns the classified error and no
(partial) `Team` entity is ever produced. -/
theorem sprite_failure_discards_partial_team (env : SearchEnv)
    (teams : List TeamRecord) (team : TeamRecord) (rest : List TeamRecord)
    (e : Error)
    (h1 : env.teamsResult = Except.ok teams)
    (h2 : selectTeam env.rng teams = some (team, rest))
    (h3 : (get_sprite_for_team env.sprite team.id).result = Except.error e) :
    (Team.search env).result = SearchResult.failed Error.APIError ∧
    ∀ t : Team, (Team.search env).result ≠ SearchResult.found t := by
  cases e
  constructor
  · simp [Team.search, h1, h2, h3]
  · intro t
    simp [Team.search, h1, h2, h3]

/-- Witness for C5 at a concrete environment where the directory fetch
succeeds with two teams, selection picks team 2, and the sprite
network fails. -/
theorem sprite_failure_discards_partial_team_witness :
    (searchEnvSpriteFail.teamsResult = Except.ok teamsAB ∧
      selectTeam searchEnvSpriteFail.rng teamsAB =
        some (⟨2, "B", false⟩, [⟨1, "A", true⟩]) ∧
      (get_sprite_for_team searchEnvSpriteFail.sprite
        (TeamRecord.mk 2 "B" false).id).result = Except.error Error.APIError) ∧
    ((Team.search searchEnvSpriteFail).result = SearchResult.failed Error.APIError ∧
      ∀ t : Team, (Team.search searchEnvSpriteFail).result ≠ SearchResult.found t) :=
  ⟨⟨rfl, rfl, rfl⟩,
    sprite_failure_discards_partial_team searchEnvSpriteFail teamsAB
      ⟨2, "B", false⟩ [⟨1, "A", true⟩] Error.APIError rfl rfl rfl⟩

/-- C6: every underlying failure cause is classified to the single
error kind `APIError`; the surfaced error type has no other
inhabitant, so no distinction between causes can appear in the result;
and a pipeline failure surfaces exactly the classification of its
cause. -/
theorem error_causes_collapse_to_APIError :
    (∀ c : FailureCause, classify c = Error.APIError) ∧
    (∀ e : Error, e = Error.APIError) ∧
    (∀ env : SearchEnv, ∀ c : FailureCause, env.teamsResult = Except.error c →
      (Team.search env).result = SearchResult.failed (classify c)) := by
  refine ⟨fun c => rfl, fun e => by cases e; rfl, fun env c h => ?_⟩
  simp [Team.search, h]

/-- Witness for C6 at a concrete environment whose directory fetch
fails with a transport error. -/
theorem error_causes_collapse_to_APIError_witness :
    searchEnvDirFail.teamsResult = Except.error FailureCause.transport ∧
    (Team.search searchEnvDirFail).result =
      SearchResult.failed (classify FailureCause.transport) :=
  ⟨rfl, error_causes_collapse_to_APIError.2.2 searchEnvDirFail
    FailureCause.transport rfl⟩

/-- C7: the application state has exactly the three states Loading,
Loaded and Errored; the initial state is Loading; and from any state,
`TeamFound (Ok team)` yields `Loaded team` and `TeamFound (Err e)`
yields `Errored e`. -/
theorem app_state_three_states_and_transitions :
    HockeyApp.new.1 = HockeyApp.Loading ∧
    (∀ s : HockeyApp, ∀ t : Team,
      (HockeyApp.update s (Message.TeamFound (Except.ok t))).1 = HockeyApp.Loaded t) ∧
    (∀ s : HockeyApp, ∀ e : Error,
      (HockeyApp.update s (Message.TeamFound (Except.error e))).1 = HockeyApp.Errored e) ∧
    (∀ s : HockeyApp, s = HockeyApp.Loading ∨
      (∃ t, s = HockeyApp.Loaded t) ∨ (∃ e, s = HockeyApp.Errored e)) := by
  refine ⟨rfl, fun _ _ => rfl, fun _ _ => rfl, fun s => ?_⟩
  cases s with
  | Loading => exact Or.inl rfl
  | Loaded t => exact Or.inr (Or.inl ⟨t, rfl⟩)
  | Errored e => exact Or.inr (Or.inr ⟨e, rfl⟩)

/-- C8: a `Search` message in the Loading state starts no new search
and leaves the state unchanged; a `Search` message in the Loaded or
Errored state moves the state to Loading and starts exactly one new
search task. -/
theorem search_message_guard :
    HockeyApp.update HockeyApp.Loading Message.Search = (HockeyApp.Loading, 0) ∧
    (∀ t : Team,
      HockeyApp.update (HockeyApp.Loaded t) Message.Search = (HockeyApp.Loading, 1)) ∧
    (∀ e : Error,
      HockeyApp.update (HockeyApp.Errored e) Message.Search = (HockeyApp.Loading, 1)) :=
  ⟨rfl, fun t => rfl, fun e => rfl⟩

/-- C9: in the concrete scenario (directory `[{1,A,true},{2,B,false}]`,
rng draw picking index 1, empty cache, network serving status 200 with
body `<svg/>` at the templated URL for id 2), the selector yields team
id 2, the search fetches once over the network, leaves exactly the
bytes of `<svg/>` at `/tmp/2.svg`, and produces the Team entity with
number 2, name B, active false, and that image path. -/
theorem concrete_scenario_team_two :
    selectTeam 1 teamsAB = some (⟨2, "B", false⟩, [⟨1, "A", true⟩]) ∧
    (Team.search searchEnvScenario).result =
      SearchResult.found ⟨2, "B", false, spritePath "/tmp" 2⟩ ∧
    (Team.search searchEnvScenario).spriteNetCalls = 1 ∧
    (Team.search searchEnvScenario).spriteFsWrites = 1 ∧
    (Team.search searchEnvScenario).fsAfter (spritePath "/tmp" 2) = some svgBytes :=
  ⟨rfl, rfl, rfl, rfl, rfl⟩

/-- C10: if the directory fetch succeeds with an empty collection, the
selection step draws from the empty range (a panic of `gen_range`),
the search run panics, and the error branch of the search result is
never taken for this input. -/
theorem empty_directory_panics (env : SearchEnv)
    (h : env.teamsResult = Except.ok []) :
    gen_range env.rng 0 = none ∧
    (Team.search env).result = SearchResult.panicked ∧
    ∀ e : Error, (Team.search env).result ≠ SearchResult.failed e := by
  refine ⟨rfl, ?_, ?_⟩ <;> simp [Team.search, h, selectTeam, gen_range]

/-- Witness for C10 at a concrete environment whose directory fetch
returns the empty collection. -/
theorem empty_directory_panics_witness :
    searchEnvEmptyDir.teamsResult = Except.ok [] ∧
    (gen_range searchEnvEmptyDir.rng 0 = none ∧
      (Team.search searchEnvEmptyDir).result = SearchResult.panicked ∧
      ∀ e : Error, (Team.search searchEnvEmptyDir).result ≠ SearchResult.failed e) :=
  ⟨rfl, empty_directory_panics searchEnvEmptyDir rfl⟩

end HockeyGui
